import Mathlib

/-!
Verification of the sentiment-analysis workshop notebook
(`src/sentiment-analysis/tf-sentiment-analysis.ipynb`).

The notebook is straight-line glue code around the SageMaker SDK and
Keras dataset utilities.  We shallowly embed the pure data
manipulations it performs: sequence padding, Python-dict construction
and lookup (for the reversed word index), decoding of integer-encoded
reviews, the batch-transform results comprehension, the CSV export of
the first 100 padded test rows, the Estimator / tuner configuration
dictionaries, and the `get_sentiment` classifier.  Python integers are
modelled as `Int`, floats as `Rat`, dicts as association lists with
Python insertion semantics, and NumPy `savetxt` output as the list of
lines it writes.
-/

namespace Sentiment

/-! ### Cell 1: constants -/

/-- `max_features = 20000` (cell-1). -/
def max_features : Nat := 20000

/-- `maxlen = 400` (cell-1). -/
def maxlen : Nat := 400

/-! ### Cell 2: sequence padding -/

/-- Modelled from the spec: the padding call in cell-2 is left as a
`REPLACE_ME` placeholder (`x_train = sequence.<REPLACE_ME>`), so the
concrete call is missing from the source.  The spec and the notebook
markdown say the step is "padding the reviews so all reviews have the
same length" `maxlen`.  We model it as Keras
`sequence.pad_sequences(seqs, maxlen=maxlen)` with the default
pre-truncation and pre-padding: keep the last `maxlen` entries of each
review and left-pad with `0` up to length `maxlen`. -/
def pad_sequences (m : Nat) (seqs : List (List Int)) : List (List Int) :=
  seqs.map (fun s =>
    List.replicate (m - (s.drop (s.length - m)).length) 0 ++ s.drop (s.length - m))

/-! ### Python dicts as association lists (cell-26 / cell-30) -/

/-- Lookup `d[k]` in a Python dict modelled as an association list in
insertion order: the value of the first entry whose key matches, `none`
when the key is absent. -/
def dictLookup [DecidableEq α] (k : α) : List (α × β) → Option β
  | [] => none
  | p :: rest => if p.1 = k then some p.2 else dictLookup k rest

/-- Insertion into a Python dict: an existing key keeps its position and
receives the new value, a new key is appended at the end. -/
def dictInsert [DecidableEq α] (d : List (α × β)) (k : α) (v : β) : List (α × β) :=
  if (dictLookup k d).isSome then
    d.map (fun p => if p.1 = k then (k, v) else p)
  else
    d ++ [(k, v)]

/-- `dict(pairs)`: build a Python dict from a list of key-value pairs in
order, later pairs overriding earlier ones with the same key. -/
def pyDict [DecidableEq α] (pairs : List (α × β)) : List (α × β) :=
  pairs.foldl (fun d p => dictInsert d p.1 p.2) []

/-- `d.get(k, default)` (Python `dict.get`): total lookup with a default. -/
def dictGet [DecidableEq α] (d : List (α × β)) (k : α) (default : β) : β :=
  (dictLookup k d).getD default

/-- `reverse_word_index = dict([(value, key) for (key, value) in
word_index.items()])` (cell-26).  `word_index` itself is a
`REPLACE_ME` placeholder, so it stays a parameter: any word-to-index
dict. -/
def reverse_word_index (word_index : List (String × Int)) : List (Int × String) :=
  pyDict (word_index.map (fun p => (p.2, p.1)))

/-- One token of the decode comprehension
`reverse_word_index.get(i - 3, '?')` (cell-26 and cell-30). -/
def decodeToken (rwi : List (Int × String)) (i : Int) : String :=
  dictGet rwi (i - 3) "?"

/-- A whole decoded review:
`' '.join([reverse_word_index.get(i - 3, '?') for i in review])`. -/
def decodeReview (rwi : List (Int × String)) (review : List Int) : String :=
  String.intercalate " " (review.map (decodeToken rwi))

/-! ### Cell 4: CSV export of the first 100 padded test rows -/

/-- NumPy `np.array(-, dtype=np.int32)` element conversion: wrap an
integer into the signed 32-bit range. -/
def toInt32 (z : Int) : Int :=
  (z + 2 ^ 31) % 2 ^ 32 - 2 ^ 31

/-- One line written by `np.savetxt(-, fmt='%d', delimiter=",")`: the
row entries printed in decimal and joined by commas. -/
def savetxtRow (row : List Int) : String :=
  String.intercalate "," (row.map toString)

/-- The list of lines `np.savetxt` writes for a 2-D array, one line per
row, in order. -/
def savetxtLines (rows : List (List Int)) : List String :=
  rows.map savetxtRow

/-- The lines of `data/csv-test/csv-test.csv` (cell-4):
`np.savetxt(..., np.array(x_test[:100], dtype=np.int32), fmt='%d',
delimiter=",")`.  The slice `x_test[:100]` is `List.take 100`. -/
def csvTestLines (x_test : List (List Int)) : List String :=
  savetxtLines ((x_test.take 100).map (fun r => r.map toInt32))

/-! ### Cell 24: batch-transform results comprehension -/

/-- `float('%.3f' % item)`: floats are modelled as rationals and the
three-decimal formatting round trip as rounding to the nearest
thousandth. -/
def format3 (x : Rat) : Rat :=
  (round (x * 1000) : Int) / 1000

/-- `results = [float('%.3f'%(item)) for sublist in jstr['predictions']
for item in sublist]` (cell-24): the nested comprehension walks the
sublists in order and the items of each sublist in order. -/
def batchResults (predictions : List (List Rat)) : List Rat :=
  predictions.flatMap (fun sublist => sublist.map format3)

/-! ### Cells 8, 10, 16: git_config and the two Estimators -/

/-- The `git_config` dict shape: `repo` and `branch` entries, plus the
optional `commit` entry described in the markdown of cell-7. -/
structure GitConfig where
  repo : String
  branch : String
  commit : Option String
deriving DecidableEq

/-- `git_config` (cell-8): repo URL and branch only, no commit entry. -/
def git_config : GitConfig :=
  ⟨"https://github.com/aws-samples/amazon-sagemaker-script-mode", "master", none⟩

/-- The `hyperparameters` dicts passed to the Estimators: integer
`epochs` and `batch_size` entries. -/
structure Hyperparams where
  epochs : Nat
  batch_size : Nat
deriving DecidableEq

/-- The argument list of the `TensorFlow` Estimator constructor as used
in cell-10 and cell-16. -/
structure TensorFlowEstimator where
  git_config : GitConfig
  source_dir : String
  entry_point : String
  model_dir : String
  train_instance_type : String
  train_instance_count : Nat
  hyperparameters : Hyperparams
  role : String
  base_job_name : String
  framework_version : String
  py_version : String
  script_mode : Bool
deriving DecidableEq

/-- `model_dir = '/opt/ml/model'` (cell-10). -/
def model_dir : String := "/opt/ml/model"

/-- `local_estimator` (cell-10).  `role` abstracts the value returned by
`sagemaker.get_execution_role()`, the same call in both cells. -/
def local_estimator (role : String) : TensorFlowEstimator :=
  ⟨git_config, "tf-sentiment-script-mode", "sentiment.py", model_dir,
    "local", 1, ⟨1, 128⟩, role, "tf-keras-sentiment", "1.13", "py3", true⟩

/-- `estimator` for hosted training (cell-16): same constructor call
with `train_instance_type = 'ml.p3.2xlarge'` and
`hyperparameters = {'epochs': 10, 'batch_size': 128}`. -/
def estimator (role : String) : TensorFlowEstimator :=
  ⟨git_config, "tf-sentiment-script-mode", "sentiment.py", model_dir,
    "ml.p3.2xlarge", 1, ⟨10, 128⟩, role, "tf-keras-sentiment", "1.13", "py3", true⟩

/-! ### Cell 34: hyperparameter tuning ranges -/

/-- `IntegerParameter(min_value, max_value)` of the tuner SDK: the range
of integers between the two bounds inclusive. -/
structure IntegerParameter where
  min_value : Int
  max_value : Int
deriving DecidableEq

/-- A value admitted by an `IntegerParameter` range: an integer within
the inclusive bounds (the SDK searches integers of this interval). -/
def admitsValue (p : IntegerParameter) (n : Int) : Prop :=
  p.min_value ≤ n ∧ n ≤ p.max_value

instance (p : IntegerParameter) (n : Int) : Decidable (admitsValue p n) :=
  inferInstanceAs (Decidable (_ ∧ _))

/-- `hyperparameter_ranges` (cell-34): `epochs` in `IntegerParameter(10, 50)`,
`batch_size` in `IntegerParameter(64, 256)`, and nothing else. -/
def hyperparameter_ranges : List (String × IntegerParameter) :=
  [("epochs", ⟨10, 50⟩), ("batch_size", ⟨64, 256⟩)]

/-! ### Cell 28: get_sentiment -/

/-- `get_sentiment` (cell-28): `'positive' if score > 0.5 else 'negative'`.
Scores are modelled as rationals (the literal `0.5` is exact). -/
def get_sentiment (score : Rat) : String :=
  if score > 1/2 then "positive" else "negative"

/-! ### Theorems -/

/-- C1: after the dataset-preparation padding step every review sequence
in `x_train` and in `x_test` has length exactly `maxlen = 400`, so the
padded arrays are rectangular with second dimension 400.  (The padding
call itself is a `REPLACE_ME` placeholder in the source; `pad_sequences`
is modelled from the spec.) -/
theorem padded_sequences_rectangular (seqs : List (List Int)) (s : List Int)
    (hs : s ∈ pad_sequences maxlen seqs) : s.length = 400 := by
  rcases List.mem_map.mp hs with ⟨t, _, rfl⟩
  have hd : (t.drop (t.length - maxlen)).length = t.length - (t.length - maxlen) :=
    List.length_drop _ _
  have hle : (t.drop (t.length - maxlen)).length ≤ maxlen := by
    rw [hd]; omega
  simp only [List.length_append, List.length_replicate, maxlen] at *
  omega

/-- Witness for C1 at a concrete two-element review. -/
theorem padded_sequences_rectangular_witness :
    (List.replicate 398 (0 : Int) ++ [1, 2]) ∈ pad_sequences maxlen [[1, 2]] ∧
    (List.replicate 398 (0 : Int) ++ [1, 2]).length = 400 := by
  have hm : (List.replicate 398 (0 : Int) ++ [1, 2]) ∈ pad_sequences maxlen [[1, 2]] := by
    set_option maxRecDepth 4000 in decide
  exact ⟨hm, padded_sequences_rectangular [[1, 2]] _ hm⟩

/-- C10: `get_sentiment` is total on numeric scores, returns `"positive"`
iff the score exceeds `0.5`, classifies the boundary score `0.5` as
`"negative"`, and these two strings are its only possible outputs. -/
theorem get_sentiment_spec (score : Rat) :
    (get_sentiment score = "positive" ↔ score > 1/2) ∧
    (get_sentiment score = "negative" ↔ ¬ score > 1/2) ∧
    get_sentiment (1/2) = "negative" ∧
    (get_sentiment score = "positive" ∨ get_sentiment score = "negative") := by
  unfold get_sentiment
  by_cases h : score > 1/2
  · rw [if_pos h]
    exact ⟨⟨fun _ => h, fun _ => rfl⟩,
      ⟨fun hc => absurd hc (by decide), fun hc => absurd h hc⟩,
      by rw [if_neg (by norm_num)], Or.inl rfl⟩
  · rw [if_neg h]
    exact ⟨⟨fun hc => absurd hc (by decide), fun hp => absurd hp h⟩,
      ⟨fun _ => h, fun _ => rfl⟩,
      by rw [if_neg (by norm_num)], Or.inr rfl⟩

/-- C3: the results list equals the in-order flattening of all sublists
of `jstr['predictions']` with each element formatted to three decimal
places; its length is the total number of prediction values and the
order of predictions is preserved. -/
theorem batch_results_flatten (predictions : List (List Rat)) :
    batchResults predictions = predictions.flatten.map format3 ∧
    (batchResults predictions).length = (predictions.map List.length).sum := by
  have h : batchResults predictions = predictions.flatten.map format3 := by
    unfold batchResults
    rw [List.map_flatten, List.flatMap_def]
  exact ⟨h, by rw [h, List.length_map, List.length_flatten]⟩

/-- C4: `csv-test.csv` holds exactly the first 100 rows of the padded
test array, in order, each serialized as comma-delimited `%d` integers
after int32 conversion; rows beyond index 99 are not written. -/
theorem csv_test_first_100_rows (x_test : List (List Int)) (i : Nat) (hi : i < 100) :
    (csvTestLines x_test).length = min 100 x_test.length ∧
    (csvTestLines x_test).length ≤ 100 ∧
    (csvTestLines x_test)[i]? = x_test[i]?.map (fun r => savetxtRow (r.map toInt32)) := by
  unfold csvTestLines savetxtLines
  refine ⟨by simp [List.length_take], by simp [List.length_take], ?_⟩
  rw [List.getElem?_map, List.getElem?_map, List.getElem?_take_of_lt hi, Option.map_map]
  rfl

/-- Witness for C4 on a concrete two-row test array at row index 1. -/
theorem csv_test_first_100_rows_witness :
    1 < 100 ∧
    ((csvTestLines [[1, 2], [3]]).length = min 100 ([[1, 2], [3]] : List (List Int)).length ∧
     (csvTestLines [[1, 2], [3]]).length ≤ 100 ∧
     (csvTestLines [[1, 2], [3]])[1]? =
       ([[1, 2], [3]] : List (List Int))[1]?.map (fun r => savetxtRow (r.map toInt32))) :=
  ⟨by decide, csv_test_first_100_rows [[1, 2], [3]] 1 (by decide)⟩

/-- C5: the hosted-training Estimator takes exactly the same arguments
as the Local Mode Estimator except `train_instance_type`
(`'local'` vs `'ml.p3.2xlarge'`) and `epochs` (`1` vs `10`); every other
argument, including `batch_size = 128`, is unchanged. -/
theorem estimators_differ_only_in_instance_type_and_epochs (role : String) :
    (local_estimator role).git_config = (estimator role).git_config ∧
    (local_estimator role).source_dir = (estimator role).source_dir ∧
    (local_estimator role).entry_point = (estimator role).entry_point ∧
    (local_estimator role).model_dir = (estimator role).model_dir ∧
    (local_estimator role).train_instance_count = (estimator role).train_instance_count ∧
    (local_estimator role).hyperparameters.batch_size = 128 ∧
    (estimator role).hyperparameters.batch_size = 128 ∧
    (local_estimator role).role = (estimator role).role ∧
    (local_estimator role).base_job_name = (estimator role).base_job_name ∧
    (local_estimator role).framework_version = (estimator role).framework_version ∧
    (local_estimator role).py_version = (estimator role).py_version ∧
    (local_estimator role).script_mode = (estimator role).script_mode ∧
    (local_estimator role).train_instance_type = "local" ∧
    (estimator role).train_instance_type = "ml.p3.2xlarge" ∧
    (local_estimator role).hyperparameters.epochs = 1 ∧
    (estimator role).hyperparameters.epochs = 10 :=
  ⟨rfl, rfl, rfl, rfl, rfl, rfl, rfl, rfl, rfl, rfl, rfl, rfl, rfl, rfl, rfl, rfl⟩

/-- C7: every Estimator in the notebook locates the training script
`sentiment.py` in source directory `tf-sentiment-script-mode` through
`git_config`, whose repo is the external aws-samples URL, whose branch
is `master`, and which carries no commit entry. -/
theorem training_script_fetched_by_git_reference (role : String) :
    git_config.repo = "https://github.com/aws-samples/amazon-sagemaker-script-mode" ∧
    git_config.branch = "master" ∧
    git_config.commit = none ∧
    (local_estimator role).git_config = git_config ∧
    (local_estimator role).entry_point = "sentiment.py" ∧
    (local_estimator role).source_dir = "tf-sentiment-script-mode" ∧
    (estimator role).git_config = git_config ∧
    (estimator role).entry_point = "sentiment.py" ∧
    (estimator role).source_dir = "tf-sentiment-script-mode" :=
  ⟨rfl, rfl, rfl, rfl, rfl, rfl, rfl, rfl, rfl⟩

/-- C6: every hyperparameter entry of the tuning search space is either
`epochs`, admitting exactly the integers `10 ≤ n ≤ 50`, or `batch_size`,
admitting exactly the integers `64 ≤ n ≤ 256`; no other hyperparameter
appears in the range dictionary. -/
theorem tuner_search_space_bounds (kp : String × IntegerParameter)
    (hkp : kp ∈ hyperparameter_ranges) (n : Int) :
    hyperparameter_ranges.map Prod.fst = ["epochs", "batch_size"] ∧
    (kp.1 = "epochs" ∨ kp.1 = "batch_size") ∧
    (kp.1 = "epochs" → (admitsValue kp.2 n ↔ 10 ≤ n ∧ n ≤ 50)) ∧
    (kp.1 = "batch_size" → (admitsValue kp.2 n ↔ 64 ≤ n ∧ n ≤ 256)) := by
  have hkp2 : kp = ("epochs", ⟨10, 50⟩) ∨ kp = ("batch_size", ⟨64, 256⟩) := by
    simpa [hyperparameter_ranges] using hkp
  rcases hkp2 with rfl | rfl
  · exact ⟨rfl, Or.inl rfl, fun _ => Iff.rfl, fun hc => absurd hc (by decide)⟩
  · exact ⟨rfl, Or.inr rfl, fun hc => absurd hc (by decide), fun _ => Iff.rfl⟩

/-- Witness for C6 at the `epochs` entry and the admitted value 20. -/
theorem tuner_search_space_bounds_witness :
    ("epochs", IntegerParameter.mk 10 50) ∈ hyperparameter_ranges ∧
    (hyperparameter_ranges.map Prod.fst = ["epochs", "batch_size"] ∧
     (("epochs", IntegerParameter.mk 10 50).1 = "epochs" ∨
      ("epochs", IntegerParameter.mk 10 50).1 = "batch_size") ∧
     (("epochs", IntegerParameter.mk 10 50).1 = "epochs" →
       (admitsValue ("epochs", IntegerParameter.mk 10 50).2 (20 : Int) ↔
         10 ≤ (20 : Int) ∧ (20 : Int) ≤ 50)) ∧
     (("epochs", IntegerParameter.mk 10 50).1 = "batch_size" →
       (admitsValue ("epochs", IntegerParameter.mk 10 50).2 (20 : Int) ↔
         64 ≤ (20 : Int) ∧ (20 : Int) ≤ 256))) :=
  ⟨by decide, tuner_search_space_bounds ("epochs", IntegerParameter.mk 10 50) (by decide) 20⟩

/-! ### Dict lemmas -/

theorem dictLookup_nil [DecidableEq α] (k : α) : dictLookup k ([] : List (α × β)) = none :=
  rfl

theorem dictInsert_of_lookup_none [DecidableEq α] (d : List (α × β)) (k : α) (v : β)
    (h : dictLookup k d = none) : dictInsert d k v = d ++ [(k, v)] := by
  simp [dictInsert, h]

theorem dictLookup_append_of_none [DecidableEq α] (k : α) (d₂ : List (α × β)) :
    ∀ d₁ : List (α × β), dictLookup k d₁ = none →
      dictLookup k (d₁ ++ d₂) = dictLookup k d₂ := by
  intro d₁
  induction d₁ with
  | nil => intro _; rfl
  | cons p rest ih =>
    intro h
    simp only [List.cons_append, dictLookup] at h ⊢
    by_cases hpk : p.1 = k
    · rw [if_pos hpk] at h; exact absurd h (by simp)
    · rw [if_neg hpk] at h ⊢
      exact ih h

theorem foldl_dictInsert_eq_append [DecidableEq α] :
    ∀ (pairs d : List (α × β)),
      (pairs.map Prod.fst).Nodup →
      (∀ p ∈ pairs, dictLookup p.1 d = none) →
      pairs.foldl (fun d p => dictInsert d p.1 p.2) d = d ++ pairs := by
  intro pairs
  induction pairs with
  | nil => intro d _ _; simp
  | cons q rest ih =>
    intro d hnd hdis
    have hq : dictLookup q.1 d = none := hdis q (List.mem_cons_self q rest)
    rw [List.foldl_cons, dictInsert_of_lookup_none d q.1 q.2 hq]
    have hnd1 : q.1 ∉ rest.map Prod.fst := (List.nodup_cons.mp (by simpa using hnd)).1
    have hnd2 : (rest.map Prod.fst).Nodup := (List.nodup_cons.mp (by simpa using hnd)).2
    have hdis2 : ∀ p ∈ rest, dictLookup p.1 (d ++ [(q.1, q.2)]) = none := by
      intro p hp
      have h1 : dictLookup p.1 d = none := hdis p (List.mem_cons_of_mem q hp)
      have h2 : p.1 ≠ q.1 := fun hc => hnd1 (hc ▸ List.mem_map_of_mem Prod.fst hp)
      rw [dictLookup_append_of_none p.1 [(q.1, q.2)] d h1]
      simp [dictLookup, h2.symm]
    rw [ih (d ++ [(q.1, q.2)]) hnd2 hdis2, List.append_assoc]
    rfl

theorem pyDict_eq_self [DecidableEq α] (pairs : List (α × β))
    (hnd : (pairs.map Prod.fst).Nodup) : pyDict pairs = pairs := by
  unfold pyDict
  rw [foldl_dictInsert_eq_append pairs [] hnd (fun p _ => rfl)]
  rfl

theorem mem_of_dictLookup_eq_some [DecidableEq α] (k : α) (v : β) :
    ∀ d : List (α × β), dictLookup k d = some v → (k, v) ∈ d := by
  intro d
  induction d with
  | nil => intro h; exact absurd h (by simp [dictLookup])
  | cons p rest ih =>
    intro h
    unfold dictLookup at h
    by_cases hpk : p.1 = k
    · rw [if_pos hpk] at h
      have hv : p.2 = v := Option.some_injective _ h
      have hp : p = (k, v) := by rw [← hpk, ← hv]
      rw [← hp]
      exact List.mem_cons_self p rest
    · rw [if_neg hpk] at h
      exact List.mem_cons_of_mem p (ih h)

theorem dictLookup_eq_some_of_mem_nodup [DecidableEq α] (k : α) (v : β) :
    ∀ d : List (α × β), (d.map Prod.fst).Nodup → (k, v) ∈ d →
      dictLookup k d = some v := by
  intro d
  induction d with
  | nil => intro _ hm; exact absurd hm (by simp)
  | cons p rest ih =>
    intro hnd hm
    have hnd1 : p.1 ∉ rest.map Prod.fst := (List.nodup_cons.mp (by simpa using hnd)).1
    have hnd2 : (rest.map Prod.fst).Nodup := (List.nodup_cons.mp (by simpa using hnd)).2
    rcases List.mem_cons.mp hm with heq | hmem
    · rw [← heq]
      simp [dictLookup]
    · have hk : k ∈ rest.map Prod.fst := List.mem_map_of_mem Prod.fst hmem
      have hpk : p.1 ≠ k := fun hc => hnd1 (hc ▸ hk)
      unfold dictLookup
      rw [if_neg hpk]
      exact ih hnd2 hmem

/-- C2: when no two words of `word_index` share an index, the reversed
dict maps each index back to its word, and decoding an encoded review
value `v = word_index[w] + 3` recovers the word `w`. -/
theorem reverse_word_index_round_trip (word_index : List (String × Int))
    (hinj : (word_index.map Prod.snd).Nodup)
    (w : String) (v : Int)
    (hw : dictLookup w word_index = some v) :
    dictLookup v (reverse_word_index word_index) = some w ∧
    decodeToken (reverse_word_index word_index) (v + 3) = w := by
  have hkeys : ((word_index.map (fun p => (p.2, p.1))).map Prod.fst).Nodup := by
    rw [List.map_map]
    exact hinj
  have hself : reverse_word_index word_index = word_index.map (fun p => (p.2, p.1)) :=
    pyDict_eq_self _ hkeys
  have hmem : (w, v) ∈ word_index := mem_of_dictLookup_eq_some w v word_index hw
  have hmem2 : (v, w) ∈ word_index.map (fun p => (p.2, p.1)) :=
    List.mem_map.mpr ⟨(w, v), hmem, rfl⟩
  have hlook : dictLookup v (reverse_word_index word_index) = some w := by
    rw [hself]
    exact dictLookup_eq_some_of_mem_nodup v w _ hkeys hmem2
  refine ⟨hlook, ?_⟩
  unfold decodeToken dictGet
  rw [show v + 3 - 3 = v by ring, hlook]
  rfl

/-- Witness for C2 on a concrete two-word index. -/
theorem reverse_word_index_round_trip_witness :
    (([("good", (7 : Int)), ("bad", 12)].map Prod.snd).Nodup ∧
      dictLookup "good" [("good", (7 : Int)), ("bad", 12)] = some 7) ∧
    (dictLookup (7 : Int) (reverse_word_index [("good", 7), ("bad", 12)]) = some "good" ∧
      decodeToken (reverse_word_index [("good", 7), ("bad", 12)]) (7 + 3) = "good") :=
  ⟨⟨by decide, by decide⟩,
    reverse_word_index_round_trip [("good", 7), ("bad", 12)] (by decide) "good" 7 (by decide)⟩

/-- C9: review decoding is total and never raises: the `.get` lookup
returns the placeholder whenever `i - 3` is not a key, in particular for
the reserved indices 0, 1, 2 when no negative index is a word index, and
a padded prefix of a review decodes to a run of placeholder tokens. -/
theorem decode_reserved_indices (rwi : List (Int × String)) (i : Int)
    (hi : dictLookup (i - 3) rwi = none)
    (h0 : dictLookup (-3 : Int) rwi = none)
    (h1 : dictLookup (-2 : Int) rwi = none)
    (h2 : dictLookup (-1 : Int) rwi = none)
    (n : Nat) (rest : List Int) :
    decodeToken rwi i = "?" ∧
    decodeToken rwi 0 = "?" ∧ decodeToken rwi 1 = "?" ∧ decodeToken rwi 2 = "?" ∧
    (List.replicate n (0 : Int) ++ rest).map (decodeToken rwi) =
      List.replicate n "?" ++ rest.map (decodeToken rwi) := by
  have hmiss : ∀ j : Int, dictLookup (j - 3) rwi = none → decodeToken rwi j = "?" := by
    intro j hj
    unfold decodeToken dictGet
    rw [hj]
    rfl
  have hz : decodeToken rwi 0 = "?" := hmiss 0 (by rw [show (0 : Int) - 3 = -3 by ring]; exact h0)
  refine ⟨hmiss i hi, hz,
    hmiss 1 (by rw [show (1 : Int) - 3 = -2 by ring]; exact h1),
    hmiss 2 (by rw [show (2 : Int) - 3 = -1 by ring]; exact h2), ?_⟩
  rw [List.map_append, List.map_replicate, hz]

/-- Witness for C9 on a one-entry reverse index, a padded prefix of
length two, and the in-vocabulary token 8. -/
theorem decode_reserved_indices_witness :
    (dictLookup ((100 : Int) - 3) [((5 : Int), "hello")] = none ∧
      dictLookup (-3 : Int) [((5 : Int), "hello")] = none ∧
      dictLookup (-2 : Int) [((5 : Int), "hello")] = none ∧
      dictLookup (-1 : Int) [((5 : Int), "hello")] = none) ∧
    (decodeToken [((5 : Int), "hello")] 100 = "?" ∧
      decodeToken [((5 : Int), "hello")] 0 = "?" ∧
      decodeToken [((5 : Int), "hello")] 1 = "?" ∧
      decodeToken [((5 : Int), "hello")] 2 = "?" ∧
      (List.replicate 2 (0 : Int) ++ [8]).map (decodeToken [((5 : Int), "hello")]) =
        List.replicate 2 "?" ++ [(8 : Int)].map (decodeToken [((5 : Int), "hello")])) :=
  ⟨⟨by decide, by decide, by decide, by decide⟩,
    decode_reserved_indices [((5 : Int), "hello")] 100 (by decide) (by decide) (by decide)
      (by decide) 2 [8]⟩

end Sentiment
